import Mathlib

/-!
Verification of the stop-and-search ingestion pipeline.

This file gives a shallow embedding, in Lean 4, of the core ingestion
components of the repository:

* `app/services/data_cleaner.py` — `DataCleaner.clean` / `_fix_data_types`;
* `app/services/stop_search_service.py` — `_get_dates_to_process`,
  `_create_stop_search_dict`, the remediation branch of
  `_process_stop_search_data`, `remediate_failed_rows`, and the CSV write
  step of `download_stop_search_data`;
* `app/services/csv_handler.py` — `write_rows`, `bulk_insert_from_csv`,
  `_insert_batch`, `_handle_failed_row`;
* `app/core/http_client.py` — `rate_limit_wait` and the retry loop of
  `make_request`;
* `app/models/failed_row.py` and `app/models/stop_search.py` — the mapped
  column sets of the two ORM models.

Raw upstream JSON records are embedded as association lists of Python
values (`PyDict`), machine floats as rationals, and the database as
explicit state records.  Fallible Python code is embedded in `Except`.
-/

set_option autoImplicit false

namespace Adsp

/-! ## Python datetime values

`datetime.fromisoformat` results, as produced by
`_create_stop_search_dict` for the `datetime` column.  Only the fields the
pipeline inspects are kept: the calendar/clock components and the UTC
offset in minutes (`None` for a naive datetime).
-/

structure PyDateTime where
  year : Nat
  month : Nat
  day : Nat
  hour : Nat
  minute : Nat
  second : Nat
  utcOffsetMinutes : Option Int
deriving DecidableEq, Repr

/-! ## Python values and dictionaries

A raw record from the upstream API is a JSON object: a Python dict with
string keys whose values are strings, booleans, numbers, `None`, nested
objects, or (after `_create_stop_search_dict` ran) datetime objects.
-/

inductive PyVal where
  | none
  | bool (b : Bool)
  | str (s : String)
  | int (n : Int)
  | dt (d : PyDateTime)
  | obj (fields : List (String × PyVal))

abbrev PyDict := List (String × PyVal)

/-- Embedding of Python `d.get(k)`: the value at the first matching key,
or `Option.none` when the key is absent. -/
def pyGet (d : PyDict) (k : String) : Option PyVal :=
  (d.find? (fun p => p.1 = k)).map (·.2)

/-- Embedding of Python `d.get(k)` where the caller treats a missing key
as `None` (the default of `dict.get`). -/
def pyGetD (d : PyDict) (k : String) : PyVal :=
  (pyGet d k).getD .none

/-- Embedding of Python `d[k] = v`: replace the value at the first
occurrence of `k`, or append the binding (dicts preserve insertion
order). -/
def pySet : PyDict → String → PyVal → PyDict
  | [], k, v => [(k, v)]
  | p :: rest, k, v =>
    if p.1 = k then (k, v) :: rest else p :: pySet rest k v

@[simp] theorem pyGet_nil (k : String) : pyGet [] k = Option.none := rfl

theorem pyGet_cons (p : String × PyVal) (l : PyDict) (k : String) :
    pyGet (p :: l) k = if p.1 = k then some p.2 else pyGet l k := by
  by_cases h : p.1 = k <;> simp [pyGet, List.find?, h]

@[simp] theorem pySet_nil (k : String) (v : PyVal) : pySet [] k v = [(k, v)] := rfl

theorem pySet_cons (p : String × PyVal) (l : PyDict) (k : String) (v : PyVal) :
    pySet (p :: l) k v =
      if p.1 = k then (k, v) :: l else p :: pySet l k v := rfl

theorem pyGet_pySet_same (d : PyDict) (k : String) (v : PyVal) :
    pyGet (pySet d k v) k = some v := by
  induction d with
  | nil => simp [pyGet_cons]
  | cons p rest ih =>
    by_cases h : p.1 = k
    · simp [pySet_cons, h, pyGet_cons]
    · simp [pySet_cons, h, pyGet_cons, ih]

theorem pyGet_pySet_ne (d : PyDict) (k kq : String) (v : PyVal) (h : kq ≠ k) :
    pyGet (pySet d k v) kq = pyGet d kq := by
  induction d with
  | nil => simp [pyGet_cons, Ne.symm h]
  | cons p rest ih =>
    by_cases hp : p.1 = k
    · have hpq : ¬p.1 = kq := by rw [hp]; exact Ne.symm h
      simp [pySet_cons, hp, pyGet_cons, Ne.symm h, hpq]
    · by_cases hq : p.1 = kq <;> simp [pySet_cons, hp, pyGet_cons, hq, ih, h]

theorem pySet_pySet_same (d : PyDict) (k : String) (v w : PyVal) :
    pySet (pySet d k v) k w = pySet d k w := by
  induction d with
  | nil => simp [pySet_cons]
  | cons p rest ih =>
    by_cases h : p.1 = k
    · simp [pySet_cons, h]
    · simp [pySet_cons, h, ih]

/-- Embedding of the Python identity test `v is False` on the result of a
`dict.get` (only the boolean object `False` matches). -/
def isFalseBool : Option PyVal → Bool
  | some (.bool false) => true
  | _ => false

/-- Embedding of Python `v == s` between a `dict.get` result and a string
literal: `True` exactly for an equal string (comparisons against `None`,
booleans, numbers and objects are `False`, never an error). -/
def optValEqStr (v : Option PyVal) (s : String) : Bool :=
  match v with
  | some (.str t) => t = s
  | _ => false

/-! ## `DataCleaner` (`app/services/data_cleaner.py`)

The remediation pass applied to records that failed validation, and by the
dead-letter sweeper.
-/

namespace DataCleaner

/-- First step of `DataCleaner._fix_data_types`: the API returns the
boolean `False` for `"outcome"` when nothing was found, but the model
expects a string, so `False` is rewritten to `"Nothing found"`. -/
def fixOutcome (item : PyDict) : PyDict :=
  if isFalseBool (pyGet item "outcome") then
    pySet item "outcome" (.str "Nothing found")
  else item

/-- Second step of `DataCleaner._fix_data_types`: `"involved_person"` is
forced to `False` when `"type" == "Vehicle search"` and to `True`
otherwise, overriding the upstream value. -/
def setInvolvedPerson (item : PyDict) : PyDict :=
  if optValEqStr (pyGet item "type") "Vehicle search" then
    pySet item "involved_person" (.bool false)
  else
    pySet item "involved_person" (.bool true)

/-- Embedding of `DataCleaner._fix_data_types`: the two in-place updates
run in sequence on the same dict. -/
def fixDataTypes (item : PyDict) : PyDict :=
  setInvolvedPerson (fixOutcome item)

/-- Embedding of `DataCleaner.clean`: applies `_fix_data_types`. -/
def clean (item : PyDict) : PyDict := fixDataTypes item

end DataCleaner

/-! ## Partition selection (`_get_dates_to_process`)

Python compares `"YYYY-MM"` partition keys with plain string comparison,
which is lexicographic on code points; `pyCharsLt` is that comparison.
-/

/-- Lexicographic comparison of two character lists by code point, the
order Python uses for `str` comparison. -/
def pyCharsLt : List Char → List Char → Bool
  | [], [] => false
  | [], _ :: _ => true
  | _ :: _, [] => false
  | a :: as, b :: bs => if a = b then pyCharsLt as bs else decide (a < b)

/-- Embedding of Python `s < t` on strings. -/
def pyStrLt (s t : String) : Bool := pyCharsLt s.data t.data

/-- Embedding of Python `s <= t` on strings. -/
def pyStrLe (s t : String) : Bool := pyStrLt s t || s == t

/-- The negation of the loop's skip condition in
`_get_dates_to_process`: a date is kept unless the watermark string is
truthy (non-`None` and non-empty) and the date compares `<=` to it. -/
def keepDate (latestDateStr : Option String) (date : String) : Bool :=
  match latestDateStr with
  | some l => if l = "" then true else !(pyStrLe date l)
  | Option.none => true

/-- Embedding of `PoliceStopSearchService._get_dates_to_process`, after
the availability response has been reduced to the per-force sorted date
list and the watermark to its `"%Y-%m"` key (`None` when the force has no
rows). -/
def datesToProcess (availableDates : List String) (latestDateStr : Option String) :
    List String :=
  if availableDates.isEmpty then []
  else availableDates.filter (keepDate latestDateStr)

/-! ## HTTP retry client (`app/core/http_client.py`)

Waits and `Retry-After` values are machine floats in the source; they are
embedded as rationals.  The per-attempt jitter (`random.uniform(0, 0.1)`)
and the outcome of each underlying `httpx.get` call are inputs of the
model.
-/

/-- The retryable exceptions of `make_request`: `RateLimitError` (a 429
response, carrying `retry_after`), `httpx.RequestError` (network failure)
and `httpx.HTTPStatusError` (raised by `raise_for_status`). -/
inductive HttpError where
  | rateLimited (retryAfter : ℚ)
  | requestError
  | httpStatusError (status : ℕ)
deriving DecidableEq

/-- Embedding of `float(retry_after) if retry_after is not None else 1`
in `make_request`: the parsed `Retry-After` header, defaulting to 1. -/
def retryAfterFromHeader : Option ℚ → ℚ
  | some v => v
  | Option.none => 1

/-- Embedding of the response handling of `make_request`: a 429 becomes
`RateLimitError(retry_after)`, any other error status raises
`HTTPStatusError` via `raise_for_status`, and a success status raises
nothing. -/
def responseToError (status : ℕ) (retryAfterHeader : Option ℚ) : Option HttpError :=
  if status = 429 then some (.rateLimited (retryAfterFromHeader retryAfterHeader))
  else if 400 ≤ status then some (.httpStatusError status)
  else Option.none

/-- Embedding of `rate_limit_wait`: the tenacity wait callback.  For a
`RateLimitError` the wait is exactly the carried `retry_after`; for any
other exception it is `2 ** attempt * (1 + jitter)` with
`attempt = attempt_number - 1`. -/
def rate_limit_wait (exc : HttpError) (attemptNumber : ℕ) (jitter : ℚ) : ℚ :=
  match exc with
  | .rateLimited retryAfter => retryAfter
  | _ => 2 ^ (attemptNumber - 1) * (1 + jitter)

/-- Whether an exception is a transient failure (network error or HTTP
status error) rather than a rate-limit signal. -/
def isTransient : HttpError → Bool
  | .rateLimited _ => false
  | .requestError => true
  | .httpStatusError _ => true

/-- Embedding of the tenacity retry loop around `make_request`:
`outcomes n` is the result of the `n`-th underlying call (1-indexed),
`jitter n` the uniform draw used if that attempt fails, `k` the current
attempt number and `r` the remaining retries.  Returns the list of waits
slept between attempts, the number of the last attempt made, and the
final outcome (`reraise=True`: the last error is re-raised). -/
def retryLoop (outcomes : ℕ → Except HttpError Unit) (jitter : ℕ → ℚ) :
    ℕ → ℕ → List ℚ × ℕ × Except HttpError Unit
  | k, 0 => ([], k, outcomes k)
  | k, r + 1 =>
    match outcomes k with
    | .ok u => ([], k, .ok u)
    | .error e =>
      let rest := retryLoop outcomes jitter (k + 1) r
      (rate_limit_wait e k (jitter k) :: rest.1, rest.2)

/-- Embedding of `make_request` under `stop=stop_after_attempt(5)`:
attempt 1 with 4 retries remaining. -/
def make_request_model (outcomes : ℕ → Except HttpError Unit) (jitter : ℕ → ℚ) :
    List ℚ × ℕ × Except HttpError Unit :=
  retryLoop outcomes jitter 1 4

/-! ## `datetime.fromisoformat`

`_create_stop_search_dict` parses the `"datetime"` field with
`datetime.fromisoformat(value.replace("Z", "+00:00"))`.  The accepted
shape is `YYYY-MM-DD[{T| }HH:MM[:SS[.ffffff]][±HH:MM]]`, with calendar
and clock ranges validated; anything else raises `ValueError`.
-/

/-- Value of a decimal digit character, `Option.none` otherwise. -/
def digitVal (c : Char) : Option ℕ :=
  if c.isDigit then some (c.toNat - 48) else Option.none

/-- Parse exactly `n` decimal digits into a number (`acc` is the
accumulated prefix), returning the value and the remaining input. -/
def parseDigits : ℕ → ℕ → List Char → Option (ℕ × List Char)
  | 0, acc, cs => some (acc, cs)
  | _ + 1, _, [] => Option.none
  | n + 1, acc, c :: cs =>
    match digitVal c with
    | some d => parseDigits n (acc * 10 + d) cs
    | Option.none => Option.none

/-- Consume one expected character. -/
def expectChar (c : Char) : List Char → Option (List Char)
  | [] => Option.none
  | x :: xs => if x = c then some xs else Option.none

/-- Gregorian leap-year rule. -/
def isLeapYear (y : ℕ) : Bool :=
  (decide (y % 4 = 0) && !decide (y % 100 = 0)) || decide (y % 400 = 0)

/-- Number of days in a month. -/
def daysInMonth (y m : ℕ) : ℕ :=
  if m = 2 then (if isLeapYear y then 29 else 28)
  else if m = 4 ∨ m = 6 ∨ m = 9 ∨ m = 11 then 30
  else 31

/-- Parse an optional trailing UTC offset `±HH:MM`; the whole input must
be consumed.  Returns the signed offset in minutes, `Option.none` for a
naive datetime. -/
def parseOffset : List Char → Option (Option Int)
  | [] => some Option.none
  | c :: cs =>
    if c = '+' ∨ c = '-' then do
      let (oh, cs1) ← parseDigits 2 0 cs
      let cs2 ← expectChar ':' cs1
      let (om, cs3) ← parseDigits 2 0 cs2
      if cs3 = [] ∧ oh ≤ 23 ∧ om ≤ 59 then
        some (some (if c = '-' then -((oh * 60 + om : ℕ) : Int) else ((oh * 60 + om : ℕ) : Int)))
      else Option.none
    else Option.none

/-- Parse an optional `:SS[.ffffff]` seconds component (fractional part
consumed and discarded: the pipeline never reads microseconds). -/
def parseSecondFrac : List Char → Option (ℕ × List Char)
  | ':' :: rest => do
    let (s, rest1) ← parseDigits 2 0 rest
    match rest1 with
    | '.' :: rest2 =>
      let frac := rest2.takeWhile Char.isDigit
      if 1 ≤ frac.length ∧ frac.length ≤ 6 then some (s, rest2.drop frac.length)
      else Option.none
    | _ => some (s, rest1)
  | cs => some (0, cs)

/-- Parse the optional time-of-day part (with offset); an empty input is
a date-only string, meaning midnight naive. -/
def parseTime : List Char → Option (ℕ × ℕ × ℕ × Option Int)
  | [] => some (0, 0, 0, Option.none)
  | c :: cs =>
    if c = 'T' ∨ c = ' ' then do
      let (h, cs1) ← parseDigits 2 0 cs
      let cs2 ← expectChar ':' cs1
      let (mi, cs3) ← parseDigits 2 0 cs2
      let (s, cs4) ← parseSecondFrac cs3
      let off ← parseOffset cs4
      if h ≤ 23 ∧ mi ≤ 59 ∧ s ≤ 59 then some (h, mi, s, off) else Option.none
    else Option.none

/-- Model of `datetime.fromisoformat`: `Option.none` stands for the
`ValueError` raised on a malformed string. -/
def fromisoformat (s : String) : Option PyDateTime := do
  let (y, cs1) ← parseDigits 4 0 s.data
  let cs2 ← expectChar '-' cs1
  let (mo, cs3) ← parseDigits 2 0 cs2
  let cs4 ← expectChar '-' cs3
  let (d, cs5) ← parseDigits 2 0 cs4
  let (h, mi, sec, off) ← parseTime cs5
  if 1 ≤ mo ∧ mo ≤ 12 ∧ 1 ≤ d ∧ d ≤ daysInMonth y mo then
    some ⟨y, mo, d, h, mi, sec, off⟩
  else Option.none

/-! ## Canonical rows (`_create_stop_search_dict`)

The flattened dictionary built for a remediated record, with the column
set of `app/models/stop_search.py` minus the surrogate `id`.
-/

structure StopSearchRow where
  force : PyVal
  type : PyVal
  involved_person : PyVal
  datetime : PyVal
  operation : PyVal
  operation_name : PyVal
  latitude : PyVal
  longitude : PyVal
  street_id : PyVal
  street_name : PyVal
  gender : PyVal
  age_range : PyVal
  self_defined_ethnicity : PyVal
  officer_defined_ethnicity : PyVal
  legislation : PyVal
  object_of_search : PyVal
  outcome : PyVal
  outcome_linked_to_object_of_search : PyVal
  removal_of_more_than_outer_clothing : PyVal
  outcome_object_id : PyVal
  outcome_object_name : PyVal

/-- Embedding of Python `value or {}` followed by attribute access
`.get` on the result: falsy values collapse to the empty dict, a truthy
non-dict raises `AttributeError` at the subsequent `.get`. -/
def pyOrEmptyDict (v : PyVal) : Except String PyDict :=
  match v with
  | .obj l => .ok l
  | .none => .ok []
  | .bool false => .ok []
  | .int 0 => .ok []
  | .str "" => .ok []
  | _ => .error "AttributeError: object has no attribute get"

/-- Embedding of `value.replace("Z", "+00:00")`: the pattern is the
single character `Z`, so replacement is char-by-char. -/
def replaceZ : List Char → List Char
  | [] => []
  | c :: cs =>
    if c = 'Z' then '+' :: '0' :: '0' :: ':' :: '0' :: '0' :: replaceZ cs
    else c :: replaceZ cs

/-- Embedding of the `datetime` handling of `_create_stop_search_dict`:
a string value is parsed with `fromisoformat` after `Z` is replaced by
`+00:00` (raising `ValueError` on failure); any non-string value is kept
unchanged. -/
def parseDatetimeValue (v : PyVal) : Except String PyVal :=
  match v with
  | .str s =>
    match fromisoformat (String.mk (replaceZ s.data)) with
    | some d => .ok (.dt d)
    | Option.none => .error ("Invalid isoformat string: " ++ s)
  | v => .ok v

/-- Embedding of `PoliceStopSearchService._create_stop_search_dict`:
unpack `location`, `location.street` and `outcome_object` (each `or {}`),
parse the `datetime` field, and build the flattened dictionary.  Any
exception propagates to the caller. -/
def createStopSearchDict (item : PyDict) (force : String) :
    Except String StopSearchRow :=
  match pyOrEmptyDict (pyGetD item "location") with
  | .error e => .error e
  | .ok location =>
  match pyOrEmptyDict (pyGetD location "street") with
  | .error e => .error e
  | .ok street =>
  match pyOrEmptyDict (pyGetD item "outcome_object") with
  | .error e => .error e
  | .ok outcomeObject =>
  match parseDatetimeValue (pyGetD item "datetime") with
  | .error e => .error e
  | .ok dtValue =>
  .ok {
    force := .str force
    type := pyGetD item "type"
    involved_person := pyGetD item "involved_person"
    datetime := dtValue
    operation := pyGetD item "operation"
    operation_name := pyGetD item "operation_name"
    latitude := pyGetD location "latitude"
    longitude := pyGetD location "longitude"
    street_id := pyGetD street "id"
    street_name := pyGetD street "name"
    gender := pyGetD item "gender"
    age_range := pyGetD item "age_range"
    self_defined_ethnicity := pyGetD item "self_defined_ethnicity"
    officer_defined_ethnicity := pyGetD item "officer_defined_ethnicity"
    legislation := pyGetD item "legislation"
    object_of_search := pyGetD item "object_of_search"
    outcome := pyGetD item "outcome"
    outcome_linked_to_object_of_search := pyGetD item "outcome_linked_to_object_of_search"
    removal_of_more_than_outer_clothing := pyGetD item "removal_of_more_than_outer_clothing"
    outcome_object_id := pyGetD outcomeObject "id"
    outcome_object_name := pyGetD outcomeObject "name" }

/-- Embedding of the remediation branch of `_process_stop_search_data`
(lines 373-377): a record that failed first-pass validation is cleaned
with `DataCleaner.clean` and then canonicalized with
`_create_stop_search_dict`. -/
def remediateRecord (item : PyDict) (force : String) : Except String StopSearchRow :=
  createStopSearchDict (DataCleaner.clean item) force

/-- Embedding of the per-record emission of `_process_stop_search_data`.
The first-pass verdict (`StopSearchDataFrameSchema.validate`, pandera) is
the parameter `passesFirstPass`.  A record the first pass accepts is
flattened and emitted verbatim — `DataCleaner.clean` is never applied to
it; only a record the first pass rejects goes through the remediation
branch.  The verbatim flattening extracts the same nested fields and
parses the same `datetime` as `_create_stop_search_dict`, carrying
`involved_person` and `outcome` through unchanged. -/
def processRecord (passesFirstPass : PyDict → Bool) (item : PyDict) (force : String) :
    Except String StopSearchRow :=
  if passesFirstPass item then createStopSearchDict item force
  else remediateRecord item force

/-! ## ORM models

The mapped column sets of the two declarative models.  The SQLAlchemy
declarative constructor accepts only keywords naming mapped attributes
and raises `TypeError` otherwise; a class-level access to an unmapped
attribute raises `AttributeError`.
-/

/-- Mapped columns of `FailedRow` (`app/models/failed_row.py`): `id`,
`raw_data`, `reason`, `created_at`.  The model declares no `source`
column. -/
def failedRowColumns : List String := ["id", "raw_data", "reason", "created_at"]

/-- Mapped columns of `StopSearch` (`app/models/stop_search.py`). -/
def stopSearchColumns : List String :=
  ["id", "force", "type", "involved_person", "datetime", "operation",
   "operation_name", "latitude", "longitude", "street_id", "street_name",
   "gender", "age_range", "self_defined_ethnicity",
   "officer_defined_ethnicity", "legislation", "object_of_search",
   "outcome", "outcome_linked_to_object_of_search",
   "removal_of_more_than_outer_clothing", "outcome_object_id",
   "outcome_object_name"]

/-- `StopSearch.__tablename__`. -/
def stopSearchesTableName : String := "stop_searches"

/-! ## Bulk loader (`CSVHandler.bulk_insert_from_csv`)

A CSV file is a header line plus data lines; the database is a pair of
the target table's rows and the dead-letter rows.  The outcome of one
`COPY ... FROM STDIN` call is abstracted as a predicate `ok` on the data
lines of its payload (per the bulk-load protocol, one bad row aborts the
whole streamed call). -/

/-- A `FailedRow` as `_handle_failed_row` would persist it: the re-parsed
row and the triggering error text. -/
structure QuarantinedRow where
  raw_data : List (String × String)
  reason : String
deriving DecidableEq, Repr

/-- Database state visible to the bulk loader. -/
structure LoadState where
  table : List String
  failed_rows : List QuarantinedRow
deriving DecidableEq, Repr

/-- Embedding of `csv.DictReader(io.StringIO(header + row_line))` for a
single data line: zip the header fields with the row fields (fields
containing quoted commas are out of scope for the rows at issue). -/
def csvDictReaderRow (header rowLine : String) : List (String × String) :=
  (header.splitOn ",").zip (rowLine.splitOn ",")

/-- Embedding of `CSVHandler._handle_failed_row`.  For the canonical
table it re-parses the row and evaluates
`FailedRow(raw_data=row_dict, reason=error_msg, source=table_name)`
inside a `try`: the declarative constructor accepts a keyword only if it
names a mapped column of `app/models/failed_row.py`, else it raises
`TypeError`, which the surrounding `except` logs and swallows, dropping
the row.  For any other table the row is only logged. -/
def handle_failed_row (st : LoadState) (rowLine header errorMsg tableName : String) :
    LoadState :=
  if tableName = stopSearchesTableName then
    if ["raw_data", "reason", "source"].all (fun k => failedRowColumns.contains k) then
      { st with failed_rows := st.failed_rows ++
          [{ raw_data := csvDictReaderRow header rowLine, reason := errorMsg }] }
    else st
  else st

/-- Split a list into consecutive chunks of `max 1 size` elements:
the sub-batches `rows[i : i + chunk_size]` of `_insert_batch`. -/
def chunkList {α : Type} (size : ℕ) : List α → List (List α)
  | [] => []
  | x :: xs => (x :: xs).take (max 1 size) :: chunkList size ((x :: xs).drop (max 1 size))
termination_by l => l.length
decreasing_by
  simp only [List.length_drop, List.length_cons]
  have h1 : 1 ≤ max 1 size := Nat.le_max_left 1 size
  omega

theorem chunkList_mem {α : Type} (size : ℕ) :
    ∀ (l : List α), ∀ c ∈ chunkList size l, c.length ≤ max 1 size ∧ l ≠ []
  | [] => by
    intro c hc
    rw [chunkList] at hc
    simp at hc
  | x :: xs => by
    intro c hc
    rw [chunkList] at hc
    rcases List.mem_cons.mp hc with h | h
    · subst h
      exact ⟨List.length_take_le _ _, by simp⟩
    · exact ⟨(chunkList_mem size ((x :: xs).drop (max 1 size)) c h).1, by simp⟩
termination_by l => l.length
decreasing_by
  simp only [List.length_drop, List.length_cons]
  have h1 : 1 ≤ max 1 size := Nat.le_max_left 1 size
  omega

/-- Embedding of `CSVHandler._insert_batch`: try one `COPY` for the
batch inside a savepoint; on failure roll back and either quarantine (a
single-row batch) or split into sub-batches of `max(1, len(rows) // 10)`
rows and recurse over them in order.  `errText rows` is `str(e)` for the
failed `COPY` of `rows`. -/
def insert_batch (ok : List String → Bool) (errText : List String → String)
    (tableName header : String) (st : LoadState) (rows : List String) : LoadState :=
  if ok rows then { st with table := st.table ++ rows }
  else if h1 : rows.length = 1 then
    handle_failed_row st (rows.headD "") header (errText rows) tableName
  else
    (chunkList (max 1 (rows.length / 10)) rows).attach.foldl
      (fun s c => insert_batch ok errText tableName header s c.1) st
termination_by rows.length
decreasing_by
  have hm := chunkList_mem (max 1 (rows.length / 10)) rows c.1 c.2
  have h0 : rows.length ≠ 0 := by
    intro h
    exact hm.2 (List.length_eq_zero.mp h)
  omega

/-- One step of the batch-accumulation loop of
`bulk_insert_from_csv`: append the line to the current batch and flush
it once it reaches `BATCH_SIZE = 1000` rows. -/
def flushStep (acc : List (List String) × List String) (line : String) :
    List (List String) × List String :=
  if 1000 ≤ (acc.2 ++ [line]).length then (acc.1 ++ [acc.2 ++ [line]], [])
  else (acc.1, acc.2 ++ [line])

/-- The batches submitted by the chunked fallback of
`bulk_insert_from_csv`, in submission order: full batches of 1000 lines
flushed during the read loop, then the final partial batch if nonempty. -/
def readBatches (lines : List String) : List (List String) :=
  let fin := lines.foldl flushStep ([], [])
  if fin.2.isEmpty then fin.1 else fin.1 ++ [fin.2]

/-- Embedding of `CSVHandler.bulk_insert_from_csv`: first one `COPY` of
the whole file inside a savepoint (committing on success); on failure,
roll back and re-read the file, submitting `readBatches` to
`_insert_batch` in order, then commit.  An empty header means an empty
file: the fallback returns early. -/
def bulk_insert_from_csv (ok : List String → Bool) (errText : List String → String)
    (st : LoadState) (tableName header : String) (fileRows : List String) : LoadState :=
  if ok fileRows then { st with table := st.table ++ fileRows }
  else if header = "" then st
  else
    (readBatches fileRows).foldl
      (fun s b => insert_batch ok errText tableName header s b) st

/-! ## CSV writing (`CSVHandler.write_rows` and its call sites)

`write_rows(file_path, objects, columns)` always opens the file with
mode `"w"`; it has no `mode` parameter.  `download_stop_search_data`
calls it with an extra `mode="a" if append else "w"` keyword. -/

/-- Contents of a CSV file produced by `write_rows`: the header line and
one row per object, each cell `obj.get(col)` (the objects written by this
pipeline are dicts). -/
structure CsvFileContents where
  header : List String
  rows : List (List PyVal)

/-- Embedding of the body of `CSVHandler.write_rows`: opening with mode
`"w"` truncates, so the produced contents do not depend on what the file
held before. -/
def write_rows (objects : List PyDict) (columns : List String) : CsvFileContents :=
  { header := columns
    rows := objects.map fun obj => columns.map fun c => pyGetD obj c }

/-- The parameters of `def write_rows(file_path, objects, columns)`
(`app/services/csv_handler.py`, line 17). -/
def writeRowsParamNames : List String := ["file_path", "objects", "columns"]

abbrev FileSystem := List (String × CsvFileContents)

/-- Store a file at a path, replacing any existing file. -/
def setFile (fs : FileSystem) (path : String) (f : CsvFileContents) : FileSystem :=
  if fs.any (fun p => p.1 = path) then
    fs.map (fun p => if p.1 = path then (path, f) else p)
  else fs ++ [(path, f)]

/-- Embedding of a Python call to `CSVHandler.write_rows` with extra
keyword arguments: a keyword that names no parameter of `write_rows`
raises `TypeError` before anything is written. -/
def callWriteRows (fs : FileSystem) (path : String) (objects : List PyDict)
    (columns : List String) (extraKwargs : List String) : Except String FileSystem :=
  if extraKwargs.all (fun k => writeRowsParamNames.contains k) then
    .ok (setFile fs path (write_rows objects columns))
  else .error "TypeError: write_rows() got an unexpected keyword argument"

/-- `STOP_SEARCH_COLUMNS` of `app/services/stop_search_service.py`. -/
def STOP_SEARCH_COLUMNS : List String :=
  ["force", "type", "involved_person", "datetime", "operation",
   "operation_name", "latitude", "longitude", "street_id", "street_name",
   "gender", "age_range", "self_defined_ethnicity",
   "officer_defined_ethnicity", "legislation", "object_of_search",
   "outcome", "outcome_linked_to_object_of_search",
   "removal_of_more_than_outer_clothing", "outcome_object_id",
   "outcome_object_name"]

/-- `FAILED_ROW_COLUMNS` of `app/services/stop_search_service.py`. -/
def FAILED_ROW_COLUMNS : List String := ["raw_data", "reason", "source"]

/-- Embedding of the CSV-write step of
`PoliceStopSearchService.download_stop_search_data` (lines 127-145):
write the accumulated valid objects and failed rows of this attempt,
passing `mode="a" if append else "w"` as a keyword to `write_rows`. -/
def download_stop_search_write (fs : FileSystem) (outputDir force : String)
    (allValidObjects allFailedRows : List PyDict) (append : Bool) :
    Except String FileSystem := do
  let fs1 ← callWriteRows fs (outputDir ++ "/valid_" ++ force ++ ".csv")
    allValidObjects STOP_SEARCH_COLUMNS ["mode"]
  callWriteRows fs1 (outputDir ++ "/failed_" ++ force ++ ".csv")
    allFailedRows FAILED_ROW_COLUMNS ["mode"]

/-! ## Dead-letter sweep
(`PoliceStopSearchService.remediate_failed_rows`) -/

/-- A persisted `FailedRow` record. -/
structure FailedRowRec where
  id : ℕ
  raw_data : PyDict
  reason : String

/-- Database state visible to the sweeper. -/
structure RemediationDb where
  failed_rows : List FailedRowRec
  stop_searches : List StopSearchRow

/-- Embedding of `StopSearch(**cleaned_data)`: the declarative
constructor accepts only keywords naming mapped columns of
`app/models/stop_search.py`, raising `TypeError` otherwise. -/
def buildStopSearch (d : PyDict) : Except String StopSearchRow :=
  if d.all (fun p => stopSearchColumns.contains p.1) then
    .ok {
      force := pyGetD d "force"
      type := pyGetD d "type"
      involved_person := pyGetD d "involved_person"
      datetime := pyGetD d "datetime"
      operation := pyGetD d "operation"
      operation_name := pyGetD d "operation_name"
      latitude := pyGetD d "latitude"
      longitude := pyGetD d "longitude"
      street_id := pyGetD d "street_id"
      street_name := pyGetD d "street_name"
      gender := pyGetD d "gender"
      age_range := pyGetD d "age_range"
      self_defined_ethnicity := pyGetD d "self_defined_ethnicity"
      officer_defined_ethnicity := pyGetD d "officer_defined_ethnicity"
      legislation := pyGetD d "legislation"
      object_of_search := pyGetD d "object_of_search"
      outcome := pyGetD d "outcome"
      outcome_linked_to_object_of_search := pyGetD d "outcome_linked_to_object_of_search"
      removal_of_more_than_outer_clothing := pyGetD d "removal_of_more_than_outer_clothing"
      outcome_object_id := pyGetD d "outcome_object_id"
      outcome_object_name := pyGetD d "outcome_object_name" }
  else .error "TypeError: invalid keyword argument for StopSearch"

/-- One row's remediation attempt inside the sweep loop: clean the raw
payload and construct a `StopSearch` from it. -/
def remediateOneRow (row : FailedRowRec) : Except String StopSearchRow :=
  buildStopSearch (DataCleaner.clean row.raw_data)

/-- One iteration of the sweep loop: on success insert the new canonical
row, delete the dead-letter record and commit; on failure roll back,
leaving the state unchanged.  The running count is `remediated_count`. -/
def sweepStep (acc : RemediationDb × ℕ) (row : FailedRowRec) : RemediationDb × ℕ :=
  match remediateOneRow row with
  | .ok ss =>
    ({ failed_rows := acc.1.failed_rows.filter (fun r => r.id != row.id)
       stop_searches := acc.1.stop_searches ++ [ss] }, acc.2 + 1)
  | .error _ => acc

/-- Embedding of `PoliceStopSearchService.remediate_failed_rows`.  The
method first builds the query
`db.query(FailedRow).filter(FailedRow.source == StopSearch.__tablename__)`;
evaluating `FailedRow.source` raises `AttributeError` unless `source` is
a mapped column of `app/models/failed_row.py`.  Only if that attribute
exists does the per-row sweep loop run. -/
def remediate_failed_rows (db : RemediationDb) : Except String (RemediationDb × ℕ) :=
  if failedRowColumns.contains "source" then
    .ok (db.failed_rows.foldl sweepStep (db, 0))
  else .error "AttributeError: type object FailedRow has no attribute source"

/-! ## Concrete test vectors -/

/-- The spec scenario record: `type="Person search"`, `outcome=false`,
`datetime="2024-01-06T22:45:00+00:00"`. -/
def scenarioRecord : PyDict :=
  [("type", .str "Person search"), ("outcome", .bool false),
   ("datetime", .str "2024-01-06T22:45:00+00:00")]

/-- The canonical row the pipeline builds for `scenarioRecord` via the
remediation path. -/
def scenarioRow : StopSearchRow :=
  { force := .str "leicestershire"
    type := .str "Person search"
    involved_person := .bool true
    datetime := .dt ⟨2024, 1, 6, 22, 45, 0, some 0⟩
    operation := .none
    operation_name := .none
    latitude := .none
    longitude := .none
    street_id := .none
    street_name := .none
    gender := .none
    age_range := .none
    self_defined_ethnicity := .none
    officer_defined_ethnicity := .none
    legislation := .none
    object_of_search := .none
    outcome := .str "Nothing found"
    outcome_linked_to_object_of_search := .none
    removal_of_more_than_outer_clothing := .none
    outcome_object_id := .none
    outcome_object_name := .none }

/-- A record that passes the pandera first pass verbatim: every present
field is type-correct for `StopSearchDataFrameSchema` (strings for the
string columns, a boolean `involved_person`, a parseable timezone-aware
`datetime`) and every absent column is nullable — yet its upstream
`involved_person` is `False` while `type` is `"Person search"`. -/
def firstPassRecord : PyDict :=
  [("type", .str "Person search"),
   ("involved_person", .bool false),
   ("datetime", .str "2024-01-06T22:45:00+00:00"),
   ("gender", .str "Male"),
   ("age_range", .str "18-24"),
   ("object_of_search", .str "Controlled drugs"),
   ("outcome", .str "A no further action disposal")]

/-! Behaviour lemmas for `DataCleaner.clean`, shared by several claims. -/

theorem fixOutcome_get_of_ne (item : PyDict) (k : String) (h : k ≠ "outcome") :
    pyGet (DataCleaner.fixOutcome item) k = pyGet item k := by
  unfold DataCleaner.fixOutcome
  by_cases hb : isFalseBool (pyGet item "outcome") = true
  · rw [if_pos hb, pyGet_pySet_ne _ _ _ _ h]
  · rw [if_neg hb]

theorem setInvolvedPerson_eq (d : PyDict) :
    DataCleaner.setInvolvedPerson d =
      pySet d "involved_person"
        (.bool (!(optValEqStr (pyGet d "type") "Vehicle search"))) := by
  unfold DataCleaner.setInvolvedPerson
  by_cases hb : optValEqStr (pyGet d "type") "Vehicle search" = true
  · rw [if_pos hb, hb]; rfl
  · rw [if_neg hb, Bool.eq_false_iff.mpr hb]; rfl

theorem setInvolvedPerson_get_of_ne (item : PyDict) (k : String)
    (h : k ≠ "involved_person") :
    pyGet (DataCleaner.setInvolvedPerson item) k = pyGet item k := by
  rw [setInvolvedPerson_eq, pyGet_pySet_ne _ _ _ _ h]

theorem setInvolvedPerson_get_involved (item : PyDict) :
    pyGet (DataCleaner.setInvolvedPerson item) "involved_person" =
      some (.bool (!(optValEqStr (pyGet item "type") "Vehicle search"))) := by
  rw [setInvolvedPerson_eq, pyGet_pySet_same]

theorem fixOutcome_outcome_not_false (item : PyDict) :
    isFalseBool (pyGet (DataCleaner.fixOutcome item) "outcome") = false := by
  unfold DataCleaner.fixOutcome
  by_cases hb : isFalseBool (pyGet item "outcome") = true
  · rw [if_pos hb, pyGet_pySet_same]; rfl
  · rw [if_neg hb]; exact Bool.eq_false_iff.mpr hb

theorem fixOutcome_eq_of_not_false (item : PyDict)
    (h : isFalseBool (pyGet item "outcome") = false) :
    DataCleaner.fixOutcome item = item := by
  unfold DataCleaner.fixOutcome
  rw [if_neg (by simp [h])]

theorem fixOutcome_get_outcome_of_false (item : PyDict)
    (h : pyGet item "outcome" = some (.bool false)) :
    pyGet (DataCleaner.fixOutcome item) "outcome" = some (.str "Nothing found") := by
  unfold DataCleaner.fixOutcome
  rw [if_pos (by rw [h]; rfl), pyGet_pySet_same]

theorem setInvolvedPerson_idem (item : PyDict) :
    DataCleaner.setInvolvedPerson (DataCleaner.setInvolvedPerson item) =
      DataCleaner.setInvolvedPerson item := by
  have htype : pyGet (DataCleaner.setInvolvedPerson item) "type" = pyGet item "type" :=
    setInvolvedPerson_get_of_ne item "type" (by decide)
  calc DataCleaner.setInvolvedPerson (DataCleaner.setInvolvedPerson item)
      = pySet (DataCleaner.setInvolvedPerson item) "involved_person"
          (.bool (!(optValEqStr
            (pyGet (DataCleaner.setInvolvedPerson item) "type") "Vehicle search"))) :=
        setInvolvedPerson_eq _
    _ = pySet (DataCleaner.setInvolvedPerson item) "involved_person"
          (.bool (!(optValEqStr (pyGet item "type") "Vehicle search"))) := by
        rw [htype]
    _ = pySet (pySet item "involved_person"
            (.bool (!(optValEqStr (pyGet item "type") "Vehicle search"))))
          "involved_person"
          (.bool (!(optValEqStr (pyGet item "type") "Vehicle search"))) := by
        rw [setInvolvedPerson_eq item]
    _ = pySet item "involved_person"
          (.bool (!(optValEqStr (pyGet item "type") "Vehicle search"))) :=
        pySet_pySet_same _ _ _ _
    _ = DataCleaner.setInvolvedPerson item := (setInvolvedPerson_eq item).symm

theorem clean_get_of_ne (item : PyDict) (k : String)
    (h1 : k ≠ "outcome") (h2 : k ≠ "involved_person") :
    pyGet (DataCleaner.clean item) k = pyGet item k := by
  unfold DataCleaner.clean DataCleaner.fixDataTypes
  rw [setInvolvedPerson_get_of_ne _ _ h2, fixOutcome_get_of_ne _ _ h1]

theorem clean_get_involved (item : PyDict) :
    pyGet (DataCleaner.clean item) "involved_person" =
      some (.bool (!(optValEqStr (pyGet item "type") "Vehicle search"))) := by
  unfold DataCleaner.clean DataCleaner.fixDataTypes
  rw [setInvolvedPerson_get_involved, fixOutcome_get_of_ne _ _ (by decide)]

theorem clean_get_outcome_of_false (item : PyDict)
    (h : pyGet item "outcome" = some (.bool false)) :
    pyGet (DataCleaner.clean item) "outcome" = some (.str "Nothing found") := by
  unfold DataCleaner.clean DataCleaner.fixDataTypes
  rw [setInvolvedPerson_get_of_ne _ _ (by decide), fixOutcome_get_outcome_of_false _ h]

/-! Order facts about the Python string comparison. -/

theorem pyCharsLt_irrefl : ∀ as : List Char, pyCharsLt as as = false
  | [] => rfl
  | a :: as => by simp [pyCharsLt, pyCharsLt_irrefl as]

theorem pyCharsLt_asymm : ∀ as bs : List Char,
    pyCharsLt as bs = true → pyCharsLt bs as = false
  | [], [] => by simp [pyCharsLt]
  | [], _ :: _ => by intro _; rfl
  | _ :: _, [] => by simp [pyCharsLt]
  | a :: as, b :: bs => by
    intro h
    by_cases hab : a = b
    · subst hab
      simp only [pyCharsLt, if_pos rfl] at h ⊢
      exact pyCharsLt_asymm as bs h
    · simp only [pyCharsLt, if_neg hab, decide_eq_true_eq] at h
      simp only [pyCharsLt, if_neg (Ne.symm hab), decide_eq_false_iff_not]
      exact lt_asymm h

theorem pyCharsLt_total : ∀ as bs : List Char,
    pyCharsLt as bs = false → as ≠ bs → pyCharsLt bs as = true
  | [], [] => by intro _ h; exact absurd rfl h
  | [], _ :: _ => by intro h _; simp [pyCharsLt] at h
  | _ :: _, [] => by intro _ _; rfl
  | a :: as, b :: bs => by
    intro h hne
    by_cases hab : a = b
    · subst hab
      simp only [pyCharsLt, if_pos rfl] at h ⊢
      refine pyCharsLt_total as bs h ?_
      intro hEq
      exact hne (by rw [hEq])
    · simp only [pyCharsLt, if_neg hab, decide_eq_false_iff_not] at h
      simp only [pyCharsLt, if_neg (Ne.symm hab), decide_eq_true_eq]
      exact lt_of_le_of_ne (le_of_not_lt h) (Ne.symm hab)

theorem pyStrLe_eq_false_iff (s t : String) :
    pyStrLe s t = false ↔ pyStrLt t s = true := by
  constructor
  · intro h
    have h12 : pyStrLt s t = false ∧ (s == t) = false := by
      cases hx : pyStrLt s t <;> cases hy : s == t <;>
        simp [pyStrLe, hx, hy] at h ⊢
    have hne : s.data ≠ t.data := by
      intro hd
      exact (@beq_eq_false_iff_ne String _ _ s t).mp h12.2 (String.ext hd)
    exact pyCharsLt_total s.data t.data h12.1 hne
  · intro h
    have h1 : pyStrLt s t = false := pyCharsLt_asymm t.data s.data h
    have h2 : s ≠ t := by
      intro hEq
      subst hEq
      unfold pyStrLt at h
      rw [pyCharsLt_irrefl s.data] at h
      exact Bool.false_ne_true h
    unfold pyStrLe
    rw [h1, (@beq_eq_false_iff_ne String _ _ s t).mpr h2]
    rfl

theorem keepDate_some_ne (l date : String) (hl : l ≠ "") :
    keepDate (some l) date = !(pyStrLe date l) := by
  show (if l = "" then true else !(pyStrLe date l)) = !(pyStrLe date l)
  rw [if_neg hl]

theorem keepDate_none (date : String) : keepDate Option.none date = true := rfl

/-! Trace facts about the retry loop. -/

theorem retryLoop_spec (o : ℕ → Except HttpError Unit) (j : ℕ → ℚ) :
    ∀ (r k : ℕ),
      (retryLoop o j k r).1.length ≤ r ∧
      (retryLoop o j k r).2.1 ≤ k + r ∧
      (∀ i w, (retryLoop o j k r).1.get? i = some w →
        ∃ e, o (k + i) = .error e ∧ w = rate_limit_wait e (k + i) (j (k + i)))
  | 0, k => by
    refine ⟨by simp [retryLoop], by simp [retryLoop], ?_⟩
    intro i w hw
    simp [retryLoop] at hw
  | r + 1, k => by
    have ih := retryLoop_spec o j r (k + 1)
    cases ho : o k with
    | ok u =>
      refine ⟨by simp [retryLoop, ho], by simp [retryLoop, ho], ?_⟩
      intro i w hw
      simp [retryLoop, ho] at hw
    | error e =>
      refine ⟨?_, ?_, ?_⟩
      · simp only [retryLoop, ho, List.length_cons]
        exact Nat.succ_le_succ ih.1
      · simp only [retryLoop, ho]
        omega
      · intro i w hw
        simp only [retryLoop, ho] at hw
        cases i with
        | zero =>
          simp only [List.get?_cons_zero, Option.some.injEq] at hw
          exact ⟨e, by simpa using ho, by rw [Nat.add_zero]; exact hw.symm⟩
        | succ i =>
          simp only [List.get?_cons_succ] at hw
          obtain ⟨e2, he2, hw2⟩ := ih.2.2 i w hw
          refine ⟨e2, ?_, ?_⟩
          · rw [show k + (i + 1) = k + 1 + i from by omega]
            exact he2
          · rw [show k + (i + 1) = k + 1 + i from by omega]
            exact hw2

/-! Shape of the batches produced by the chunked fallback. -/

theorem foldl_flushStep_small (l : List String) :
    ∀ (done : List (List String)) (buf : List String),
      buf.length + l.length < 1000 →
      l.foldl flushStep (done, buf) = (done, buf ++ l) := by
  induction l with
  | nil => intro done buf _; simp
  | cons x xs ih =>
    intro done buf h
    have hlt : ¬ 1000 ≤ (buf ++ [x]).length := by
      simp only [List.length_append, List.length_cons, List.length_nil]
      simp only [List.length_cons] at h
      omega
    simp only [List.foldl_cons]
    rw [show flushStep (done, buf) x = (done, buf ++ [x]) from by
      have hstep : flushStep (done, buf) x =
          if 1000 ≤ (buf ++ [x]).length then (done ++ [buf ++ [x]], [])
          else (done, buf ++ [x]) := rfl
      rw [hstep, if_neg hlt]]
    rw [ih done (buf ++ [x]) (by
      simp only [List.length_append, List.length_cons, List.length_nil]
      simp only [List.length_cons] at h
      omega)]
    simp

theorem foldl_flushStep_flush (l : List String) :
    ∀ (done : List (List String)) (buf : List String),
      1000 ≤ buf.length + l.length → buf.length < 1000 →
      l.foldl flushStep (done, buf) =
        (l.drop (1000 - buf.length)).foldl flushStep
          (done ++ [buf ++ l.take (1000 - buf.length)], []) := by
  induction l with
  | nil =>
    intro done buf h1 h2
    simp only [List.length_nil, Nat.add_zero] at h1
    omega
  | cons x xs ih =>
    intro done buf h1 h2
    by_cases hflush : 1000 ≤ (buf ++ [x]).length
    · have hb : buf.length = 999 := by
        simp only [List.length_append, List.length_cons, List.length_nil] at hflush
        omega
      have hneed : 1000 - buf.length = 1 := by omega
      simp only [List.foldl_cons]
      rw [show flushStep (done, buf) x = (done ++ [buf ++ [x]], []) from by
        have hstep : flushStep (done, buf) x =
            if 1000 ≤ (buf ++ [x]).length then (done ++ [buf ++ [x]], [])
            else (done, buf ++ [x]) := rfl
        rw [hstep, if_pos hflush]]
      rw [hneed]
      simp [List.take_succ_cons, List.drop_succ_cons]
    · have hxlen : (buf ++ [x]).length = buf.length + 1 := by simp
      simp only [List.foldl_cons]
      rw [show flushStep (done, buf) x = (done, buf ++ [x]) from by
        have hstep : flushStep (done, buf) x =
            if 1000 ≤ (buf ++ [x]).length then (done ++ [buf ++ [x]], [])
            else (done, buf ++ [x]) := rfl
        rw [hstep, if_neg hflush]]
      rw [ih done (buf ++ [x]) (by
          simp only [hxlen]
          simp only [List.length_cons] at h1
          omega)
        (by
          simp only [hxlen]
          simp only [List.length_append, List.length_cons, List.length_nil] at hflush
          omega)]
      have hsub : 1000 - buf.length = (1000 - (buf.length + 1)) + 1 := by
        simp only [List.length_append, List.length_cons, List.length_nil] at hflush
        omega
      rw [hsub]
      simp only [hxlen, List.take_succ_cons, List.drop_succ_cons, List.append_assoc,
        List.cons_append, List.nil_append]

theorem readBatches_of_lt_1000 (l : List String) (h : l.length < 1000) :
    readBatches l = if l.isEmpty then [] else [l] := by
  unfold readBatches
  rw [foldl_flushStep_small l [] [] (by simpa using h)]
  cases l <;> simp

theorem readBatches_of_split (l : List String) (h1 : 1000 ≤ l.length)
    (h2 : l.length - 1000 < 1000) (h3 : l.length ≠ 1000) :
    readBatches l = [l.take 1000, l.drop 1000] := by
  unfold readBatches
  rw [foldl_flushStep_flush l [] [] (by simpa using h1) (by simp)]
  simp only [List.nil_append, Nat.sub_zero, List.length_nil]
  rw [foldl_flushStep_small (l.drop 1000) [l.take 1000] [] (by
    simp only [List.length_drop, List.length_nil, Nat.zero_add]
    omega)]
  have hlen : (l.drop 1000).length ≠ 0 := by
    simp only [List.length_drop]
    omega
  have hne : (l.drop 1000).isEmpty = false := by
    cases hd : l.drop 1000 with
    | nil => rw [hd] at hlen; simp at hlen
    | cons a as => rfl
  simp [hne]

/-! Step lemmas for the bulk loader. -/

theorem handle_failed_row_eq (st : LoadState) (rowLine header errorMsg tableName : String) :
    handle_failed_row st rowLine header errorMsg tableName = st := by
  unfold handle_failed_row
  by_cases ht : tableName = stopSearchesTableName
  · rw [if_pos ht, if_neg (by decide)]
  · rw [if_neg ht]

theorem foldl_attach {α β : Type} (l : List α) (f : β → α → β) (b : β) :
    l.attach.foldl (fun acc c => f acc c.1) b = l.foldl f b := by
  induction l generalizing b with
  | nil => rfl
  | cons x xs ih =>
    rw [List.attach_cons]
    simp only [List.foldl_cons, List.foldl_map]
    exact ih (f b x)

theorem insert_batch_of_ok (ok : List String → Bool) (errText : List String → String)
    (tableName header : String) (st : LoadState) (rows : List String)
    (h : ok rows = true) :
    insert_batch ok errText tableName header st rows =
      { st with table := st.table ++ rows } := by
  rw [insert_batch, if_pos h]

theorem insert_batch_single_fail (ok : List String → Bool)
    (errText : List String → String) (tableName header : String) (st : LoadState)
    (r : String) (h : ok [r] = false) :
    insert_batch ok errText tableName header st [r] =
      handle_failed_row st r header (errText [r]) tableName := by
  have h1 : [r].length = 1 := rfl
  rw [insert_batch, if_neg (by simp [h]), dif_pos h1]
  rfl

theorem insert_batch_split (ok : List String → Bool) (errText : List String → String)
    (tableName header : String) (st : LoadState) (rows : List String)
    (h : ok rows = false) (h1 : rows.length ≠ 1) :
    insert_batch ok errText tableName header st rows =
      (chunkList (max 1 (rows.length / 10)) rows).foldl
        (fun s c => insert_batch ok errText tableName header s c) st := by
  rw [insert_batch, if_neg (by simp [h]), dif_neg h1]
  exact foldl_attach _ _ _

theorem bulk_insert_of_full_ok (ok : List String → Bool)
    (errText : List String → String) (st : LoadState) (tableName header : String)
    (fileRows : List String) (h : ok fileRows = true) :
    bulk_insert_from_csv ok errText st tableName header fileRows =
      { st with table := st.table ++ fileRows } := by
  rw [bulk_insert_from_csv, if_pos h]

theorem bulk_insert_fallback (ok : List String → Bool)
    (errText : List String → String) (st : LoadState) (tableName header : String)
    (fileRows : List String) (h : ok fileRows = false) (hh : header ≠ "") :
    bulk_insert_from_csv ok errText st tableName header fileRows =
      (readBatches fileRows).foldl
        (fun s b => insert_batch ok errText tableName header s b) st := by
  rw [bulk_insert_from_csv, if_neg (by simp [h]), if_neg hh]

/-! Field inversion for `_create_stop_search_dict`. -/

theorem createStopSearchDict_ok_fields (item : PyDict) (force : String)
    (row : StopSearchRow) (h : createStopSearchDict item force = .ok row) :
    row.outcome = pyGetD item "outcome" ∧
      row.involved_person = pyGetD item "involved_person" := by
  unfold createStopSearchDict at h
  split at h
  · exact absurd h (by simp)
  · split at h
    · exact absurd h (by simp)
    · split at h
      · exact absurd h (by simp)
      · split at h
        · exact absurd h (by simp)
        · rw [Except.ok.injEq] at h
          subst h
          exact ⟨rfl, rfl⟩

/-! ## Claims -/

/-- C1: evaluation of `bulk_insert_from_csv` at a batch of N = 3 rows
with exactly one malformed row (a `COPY` succeeds exactly when its
payload has no `"BAD"` row).  The loader commits the N − 1 = 2 good rows,
but quarantines zero `FailedRow` records, not one: in
`_handle_failed_row`, `FailedRow(raw_data=…, reason=…, source=…)` raises
`TypeError` because `app/models/failed_row.py` maps no `source` column,
and the surrounding `except` drops the row.  The claim's quarantine
half fails on the code. -/
theorem bulk_load_one_bad_row_commits_rest_quarantines_nothing :
    bulk_insert_from_csv (fun b => !(b.any (fun r => r == "BAD")))
      (fun _ => "invalid input syntax") ⟨[], []⟩ stopSearchesTableName "force,type"
      ["r1", "BAD", "r2"] = ⟨["r1", "r2"], []⟩ := by
  rw [bulk_insert_fallback _ _ _ _ _ _ (by decide) (by decide)]
  have hrb : readBatches ["r1", "BAD", "r2"] = [["r1", "BAD", "r2"]] := by
    rw [readBatches_of_lt_1000 _ (by decide)]
    rfl
  rw [hrb]
  simp only [List.foldl_cons, List.foldl_nil]
  rw [insert_batch_split _ _ _ _ _ _ (by decide) (by decide)]
  have hck : chunkList (max 1 (["r1", "BAD", "r2"].length / 10)) ["r1", "BAD", "r2"] =
      [["r1"], ["BAD"], ["r2"]] := by
    simp [chunkList]
  rw [hck]
  simp only [List.foldl_cons, List.foldl_nil]
  rw [insert_batch_of_ok _ _ _ _ _ ["r1"] (by decide),
      insert_batch_single_fail _ _ _ _ _ "BAD" (by decide),
      insert_batch_of_ok _ _ _ _ _ ["r2"] (by decide)]
  rfl

/-- C2: evaluation of the CSV-write step of `download_stop_search_data`
on a retry attempt (`append=True`) over a filesystem already holding the
force's valid CSV from an earlier attempt.  The call raises
`TypeError` — `write_rows` has no `mode` parameter — so nothing is
appended: the retry attempt's rows are lost instead of accumulating (and
`write_rows` itself always opens with mode `"w"`, so even without the
`TypeError` the earlier rows would be overwritten, not appended). -/
theorem download_retry_append_write_raises_type_error :
    download_stop_search_write
      [("/tmp/valid_leicestershire.csv",
        ⟨STOP_SEARCH_COLUMNS, [[PyVal.str "leicestershire"]]⟩)]
      "/tmp" "leicestershire" [[("force", PyVal.str "leicestershire")]] [] true =
      .error "TypeError: write_rows() got an unexpected keyword argument" := rfl

/-- C3: partition selection.  (1) For a truthy watermark key, a date is
fetched iff it is available and strictly greater than the watermark key
in Python string order; (2) with no watermark all available dates are
fetched; (3) the spec scenario: watermark `2023-02` over
`["2023-01","2023-02","2023-03"]` yields exactly `["2023-03"]`; (4) if
nothing past the watermark is published the fetch list is empty. -/
theorem dates_to_process_strictly_after_watermark :
    (∀ (av : List String) (l d : String), l ≠ "" →
        (d ∈ datesToProcess av (some l) ↔ d ∈ av ∧ pyStrLt l d = true)) ∧
    (∀ av : List String, datesToProcess av Option.none = av) ∧
    datesToProcess ["2023-01", "2023-02", "2023-03"] (some "2023-02") = ["2023-03"] ∧
    (∀ (av : List String) (l : String), l ≠ "" →
        (∀ d ∈ av, pyStrLe d l = true) → datesToProcess av (some l) = []) := by
  refine ⟨?_, ?_, by decide, ?_⟩
  · intro av l d hl
    unfold datesToProcess
    by_cases hav : av.isEmpty
    · rw [List.isEmpty_iff] at hav
      subst hav
      simp
    · rw [if_neg hav, List.mem_filter]
      constructor
      · rintro ⟨hmem, hp⟩
        rw [keepDate_some_ne l d hl] at hp
        have hle : pyStrLe d l = false := by simpa using hp
        exact ⟨hmem, (pyStrLe_eq_false_iff d l).mp hle⟩
      · rintro ⟨hmem, hlt⟩
        refine ⟨hmem, ?_⟩
        rw [keepDate_some_ne l d hl]
        have hle : pyStrLe d l = false := (pyStrLe_eq_false_iff d l).mpr hlt
        simp [hle]
  · intro av
    unfold datesToProcess
    by_cases hav : av.isEmpty
    · rw [List.isEmpty_iff] at hav
      subst hav
      rfl
    · rw [if_neg hav]
      simp [keepDate_none]
  · intro av l hl hall
    unfold datesToProcess
    by_cases hav : av.isEmpty
    · rw [if_pos hav]
    · rw [if_neg hav]
      rw [List.filter_eq_nil]
      intro d hd
      rw [keepDate_some_ne l d hl]
      simp [hall d hd]

/-- Witness for C3: clause (4) applied at a concrete availability list
and watermark. -/
theorem dates_to_process_strictly_after_watermark_witness :
    datesToProcess ["2023-01"] (some "2023-02") = [] :=
  dates_to_process_strictly_after_watermark.2.2.2 ["2023-01"] "2023-02"
    (by decide) (by decide)

/-- C4: 429 handling.  (1) A 429 with a `Retry-After` hint raises
`RateLimitError(hint)` and the wait is exactly the hint for every
attempt number and jitter draw — no exponential growth; (2) a 429
without the header waits exactly 1; (3) with `Retry-After: 5` the wait
is at least 5; (4) in the retry-loop trace, the wait recorded after an
attempt that failed with `RateLimitError(ra)` equals `ra` exactly. -/
theorem rate_limit_hint_honored_exactly :
    (∀ (hint : ℚ) (n : ℕ) (j : ℚ),
        responseToError 429 (some hint) = some (.rateLimited hint) ∧
        rate_limit_wait (.rateLimited hint) n j = hint) ∧
    (∀ (n : ℕ) (j : ℚ),
        responseToError 429 Option.none = some (.rateLimited 1) ∧
        rate_limit_wait (.rateLimited 1) n j = 1) ∧
    (∀ (n : ℕ) (j : ℚ), 5 ≤ rate_limit_wait (.rateLimited 5) n j) ∧
    (∀ (o : ℕ → Except HttpError Unit) (j : ℕ → ℚ) (i : ℕ) (w ra : ℚ),
        (make_request_model o j).1.get? i = some w →
        o (i + 1) = .error (.rateLimited ra) → w = ra) := by
  refine ⟨fun hint n j => ⟨rfl, rfl⟩, fun n j => ⟨rfl, rfl⟩, fun n j => le_refl 5, ?_⟩
  intro o j i w ra hget hresp
  obtain ⟨e, he, hwv⟩ := (retryLoop_spec o j 4 1).2.2 i w hget
  rw [show 1 + i = i + 1 from by omega] at he hwv
  rw [hresp] at he
  rw [Except.error.injEq] at he
  rw [hwv, ← he]
  rfl

/-- Witness for C4: clause (4) applied to a run whose every attempt is
rate-limited with hint 5: the first recorded wait is exactly 5. -/
theorem rate_limit_hint_honored_exactly_witness :
    (make_request_model (fun _ => Except.error (HttpError.rateLimited 5))
        (fun _ => 0)).1.get? 0 = some 5 ∧ (5 : ℚ) = 5 :=
  ⟨rfl,
    rate_limit_hint_honored_exactly.2.2.2
      (fun _ => Except.error (HttpError.rateLimited 5)) (fun _ => 0) 0 5 5
      rfl rfl⟩

/-- C5: for every file of 1005 rows whose full-file `COPY` fails while
the two fallback `COPY` calls succeed, the chunked fallback partitions
the rows into one 1000-row batch followed by one 5-row batch, each
submitted as its own call, and all 1005 rows are loaded with nothing
quarantined. -/
theorem bulk_insert_1005_rows_chunks_to_1000_plus_5 (rows : List String)
    (ok : List String → Bool) (errText : List String → String) (st : LoadState)
    (header : String) (hlen : rows.length = 1005) (hheader : header ≠ "")
    (hfull : ok rows = false) (hb1 : ok (rows.take 1000) = true)
    (hb2 : ok (rows.drop 1000) = true) :
    readBatches rows = [rows.take 1000, rows.drop 1000] ∧
    bulk_insert_from_csv ok errText st stopSearchesTableName header rows =
      { st with table := st.table ++ rows } := by
  have hrb : readBatches rows = [rows.take 1000, rows.drop 1000] :=
    readBatches_of_split rows (by omega) (by omega) (by omega)
  refine ⟨hrb, ?_⟩
  rw [bulk_insert_fallback _ _ _ _ _ _ hfull hheader, hrb]
  simp only [List.foldl_cons, List.foldl_nil]
  rw [insert_batch_of_ok _ _ _ _ _ _ hb1, insert_batch_of_ok _ _ _ _ _ _ hb2]
  simp [List.append_assoc, List.take_append_drop]

/-- Witness for C5: 1005 concrete rows, full copy failing by size, both
sub-1000 copies succeeding. -/
theorem bulk_insert_1005_rows_chunks_to_1000_plus_5_witness :
    readBatches (List.replicate 1005 "row") =
      [(List.replicate 1005 "row").take 1000, (List.replicate 1005 "row").drop 1000] ∧
    bulk_insert_from_csv (fun b => decide (b.length ≤ 1000))
      (fun _ => "deliberate failure") ⟨[], []⟩ stopSearchesTableName "header"
      (List.replicate 1005 "row") = ⟨[] ++ List.replicate 1005 "row", []⟩ :=
  bulk_insert_1005_rows_chunks_to_1000_plus_5 (List.replicate 1005 "row")
    (fun b => decide (b.length ≤ 1000)) (fun _ => "deliberate failure") ⟨[], []⟩
    "header"
    (by rw [List.length_replicate])
    (by decide)
    (by
      show decide ((List.replicate 1005 "row").length ≤ 1000) = false
      rw [List.length_replicate]
      decide)
    (by
      show decide (((List.replicate 1005 "row").take 1000).length ≤ 1000) = true
      rw [List.length_take, List.length_replicate]
      decide)
    (by
      show decide (((List.replicate 1005 "row").drop 1000).length ≤ 1000) = true
      rw [List.length_drop, List.length_replicate]
      decide)

/-- C6: evaluation of `remediate_failed_rows` on a dead-letter store
holding one remediable record.  The sweep raises `AttributeError` while
building its query filter (`FailedRow.source` — the model maps no
`source` column) before any record is attempted, so no record is
processed independently as the claim requires. -/
theorem remediate_failed_rows_raises_attribute_error :
    remediate_failed_rows
      ⟨[⟨1, [("type", PyVal.str "Person search"),
             ("datetime", PyVal.str "2024-01-06T22:45:00+00:00")],
          "validation failure"⟩], []⟩ =
      .error "AttributeError: type object FailedRow has no attribute source" := rfl

/-- C7 counterexample: the claim as stated — for every record in the
pipeline, `involved_person` in the canonicalized row is forced from
`type` alone — is false on the code.  `firstPassRecord` is
schema-conformant, so the first pass accepts it (verdict instantiated to
`true`, pandera's verdict on this record) and `_process_stop_search_data`
emits it verbatim: its `type` is not `"Vehicle search"`, yet the
canonicalized row keeps the upstream `involved_person = False` instead
of the claimed `True`, because `DataCleaner.clean` never runs on
first-pass-valid records. -/
theorem first_pass_valid_record_keeps_upstream_involved_person :
    optValEqStr (pyGet firstPassRecord "type") "Vehicle search" = false ∧
    (processRecord (fun _ => true) firstPassRecord "leicestershire").map
        (fun r => r.involved_person) = .ok (.bool false) ∧
    PyVal.bool false ≠ PyVal.bool true := by
  refine ⟨rfl, rfl, ?_⟩
  intro h
  injection h with h2
  exact Bool.false_ne_true h2

/-- C7 (amended): the remediation canonicalization — the branch of
`_process_stop_search_data` that records reach after failing first-pass
validation, where spec §4.2's rewrite rules live.  (1) A record entering
it with boolean-`false` `outcome` canonicalizes with
`outcome = "Nothing found"`; (2) for every record it canonicalizes,
`involved_person` is `false` iff `type == "Vehicle search"` and `true`
otherwise, whatever the upstream value; (3) the spec scenario record
canonicalizes to `outcome="Nothing found"`, `involved_person=true`. -/
theorem remediation_rewrites_outcome_and_involved_person :
    (∀ (item : PyDict) (force : String) (row : StopSearchRow),
        pyGet item "outcome" = some (.bool false) →
        remediateRecord item force = .ok row →
        row.outcome = .str "Nothing found") ∧
    (∀ (item : PyDict) (force : String) (row : StopSearchRow),
        remediateRecord item force = .ok row →
        row.involved_person =
          .bool (!(optValEqStr (pyGet item "type") "Vehicle search"))) ∧
    remediateRecord scenarioRecord "leicestershire" = .ok scenarioRow := by
  refine ⟨?_, ?_, rfl⟩
  · intro item force row hfalse hok
    have hf := createStopSearchDict_ok_fields (DataCleaner.clean item) force row hok
    rw [hf.1]
    unfold pyGetD
    rw [clean_get_outcome_of_false item hfalse]
    rfl
  · intro item force row hok
    have hf := createStopSearchDict_ok_fields (DataCleaner.clean item) force row hok
    rw [hf.2]
    unfold pyGetD
    rw [clean_get_involved item]
    rfl

/-- Witness for C7: both clauses applied to the scenario record. -/
theorem remediation_rewrites_outcome_and_involved_person_witness :
    scenarioRow.outcome = PyVal.str "Nothing found" ∧
    scenarioRow.involved_person = PyVal.bool true := by
  have hok : remediateRecord scenarioRecord "leicestershire" = .ok scenarioRow := rfl
  refine ⟨remediation_rewrites_outcome_and_involved_person.1 scenarioRecord
    "leicestershire" scenarioRow rfl hok, ?_⟩
  have h := remediation_rewrites_outcome_and_involved_person.2.1 scenarioRecord
    "leicestershire" scenarioRow hok
  rw [h]
  rfl

/-- C8: backoff shape.  (1) A request makes at most 5 attempts; (2) the
wait recorded after attempt `i+1` (the `(i+1)`-th retry delay), when that
attempt failed with a transient error, is `2 ^ i * (1 + jitter)`; (3)
ignoring jitter, transient waits are non-decreasing in the attempt
number. -/
theorem retry_backoff_formula_monotone_bounded (o : ℕ → Except HttpError Unit)
    (j : ℕ → ℚ) :
    (make_request_model o j).2.1 ≤ 5 ∧
    (∀ i w, (make_request_model o j).1.get? i = some w →
        ∃ e, o (i + 1) = .error e ∧
          (isTransient e = true → w = 2 ^ i * (1 + j (i + 1)))) ∧
    (∀ (e1 e2 : HttpError), isTransient e1 = true → isTransient e2 = true →
        ∀ n m : ℕ, n ≤ m → rate_limit_wait e1 n 0 ≤ rate_limit_wait e2 m 0) := by
  have hs := retryLoop_spec o j 4 1
  refine ⟨by simpa using hs.2.1, ?_, ?_⟩
  · intro i w hw
    obtain ⟨e, he, hwv⟩ := hs.2.2 i w hw
    rw [show 1 + i = i + 1 from by omega] at he hwv
    refine ⟨e, he, ?_⟩
    intro htr
    rw [hwv]
    cases e with
    | rateLimited ra => simp [isTransient] at htr
    | requestError =>
      simp only [rate_limit_wait]
      rw [show i + 1 - 1 = i from by omega]
    | httpStatusError s =>
      simp only [rate_limit_wait]
      rw [show i + 1 - 1 = i from by omega]
  · intro e1 e2 h1 h2 n m hnm
    have hp : (2 : ℚ) ^ (n - 1) ≤ 2 ^ (m - 1) :=
      pow_le_pow_right one_le_two (Nat.sub_le_sub_right hnm 1)
    cases e1 with
    | rateLimited ra => simp [isTransient] at h1
    | requestError =>
      cases e2 with
      | rateLimited ra => simp [isTransient] at h2
      | requestError => simpa [rate_limit_wait] using hp
      | httpStatusError s => simpa [rate_limit_wait] using hp
    | httpStatusError s =>
      cases e2 with
      | rateLimited ra => simp [isTransient] at h2
      | requestError => simpa [rate_limit_wait] using hp
      | httpStatusError s2 => simpa [rate_limit_wait] using hp

/-- Witness for C8: a run of five straight network failures — the
attempt counter stops at 5, and the delay after the second attempt
equals `2 ^ 1 * (1 + 0)`, via the theorem's clauses. -/
theorem retry_backoff_formula_monotone_bounded_witness :
    (make_request_model (fun _ => Except.error HttpError.requestError)
        (fun _ => 0)).2.1 ≤ 5 ∧
    rate_limit_wait HttpError.requestError 2 0 ≤
      rate_limit_wait HttpError.requestError 4 0 ∧
    (2 : ℚ) = 2 ^ 1 * (1 + 0) := by
  have h := retry_backoff_formula_monotone_bounded
    (fun _ => Except.error HttpError.requestError) (fun _ => 0)
  refine ⟨h.1, h.2.2 HttpError.requestError HttpError.requestError rfl rfl 2 4
    (by decide), ?_⟩
  obtain ⟨e, he, himp⟩ := h.2.1 1 2 (by
    simp [make_request_model, retryLoop, rate_limit_wait, pow_one])
  have he2 : e = HttpError.requestError := by
    have h3 : (Except.error HttpError.requestError : Except HttpError Unit) =
        Except.error e := he
    rw [Except.error.injEq] at h3
    exact h3.symm
  subst he2
  exact himp rfl

/-- C9: the remediation pass is idempotent:
`clean (clean x) = clean x` for every raw record dict. -/
theorem data_cleaner_clean_idempotent (item : PyDict) :
    DataCleaner.clean (DataCleaner.clean item) = DataCleaner.clean item := by
  unfold DataCleaner.clean DataCleaner.fixDataTypes
  have hfix : DataCleaner.fixOutcome
      (DataCleaner.setInvolvedPerson (DataCleaner.fixOutcome item)) =
      DataCleaner.setInvolvedPerson (DataCleaner.fixOutcome item) := by
    apply fixOutcome_eq_of_not_false
    rw [setInvolvedPerson_get_of_ne _ _ (by decide)]
    exact fixOutcome_outcome_not_false item
  rw [hfix, setInvolvedPerson_idem]

/-- C10: `clean` changes at most `"outcome"` and `"involved_person"`:
every other key keeps its value, and the result always carries an
`"involved_person"` boolean determined solely by the `"type"` value. -/
theorem data_cleaner_clean_frame :
    (∀ (item : PyDict) (k : String), k ≠ "outcome" → k ≠ "involved_person" →
        pyGet (DataCleaner.clean item) k = pyGet item k) ∧
    (∀ item : PyDict,
        pyGet (DataCleaner.clean item) "involved_person" =
          some (.bool (!(optValEqStr (pyGet item "type") "Vehicle search")))) :=
  ⟨clean_get_of_ne, clean_get_involved⟩

/-- Witness for C10: the frame clause applied at a concrete record and
key. -/
theorem data_cleaner_clean_frame_witness :
    pyGet (DataCleaner.clean [("gender", PyVal.str "Male")]) "gender" =
      some (PyVal.str "Male") := by
  have h := data_cleaner_clean_frame.1 [("gender", PyVal.str "Male")] "gender"
    (by decide) (by decide)
  rw [h]
  rfl

end Adsp
